import Mathlib

/-!
Shallow embedding of the GNU Hurd raw-device pager (pager callbacks,
shutdown coordinator and memory-object creation) in Lean 4.

The device itself is an external collaborator; its `device_read` /
`device_write` operations are modelled as oracle functions passed to the
page handlers.  Observable side effects of the C code (the device write
call issued, `vm_deallocate` of the caller's buffer, the `pager_shutdown`
call, caching-attribute changes on the endpoints of the port bucket) are
recorded explicitly in the result structures so that theorems can speak
about them.
-/

/-- Mach page size on i386 (global `vm_page_size`). -/
def vm_page_size : Nat := 4096

/-- errno: I/O error. -/
def eio : Nat := 5

/-- errno: no such device. -/
def enodev : Nat := 19

/-- errno: no space left on device. -/
def enospc : Nat := 28

/-- errno: read-only file system. -/
def erofs : Nat := 30

/-- errno: disk quota exceeded. -/
def edquot : Nat := 122

/-- Mach memory-object copy strategy `MEMORY_OBJECT_COPY_DELAY`. -/
def MEMORY_OBJECT_COPY_DELAY : Nat := 2

/-- The null Mach port. -/
def MACH_PORT_NULL : Nat := 0

/-- The device flags tested by the pager code: `DEV_READONLY` and
`DEV_SERIAL` are bits of `dev->flags`; we model the two tested bits as
booleans. -/
structure DevFlags where
  readonly : Bool
  serial : Bool
deriving Repr, DecidableEq

/-- A protocol endpoint (a pager port) living in the device's port
bucket, carrying the attributes set by `pager_change_attributes`. -/
structure Endpoint where
  id : Nat
  may_cache : Bool
  copy_strategy : Nat
deriving Repr, DecidableEq

/-- The device descriptor `struct dev` (the fields used by the pager
code): device port, block size, total size in bytes, flags, the pager
(backing object) reference and the pager port bucket (request group).
`pager` is `none` exactly when the C field is `NULL`; the bucket is
`none` before `init_dev_paging` ran and afterwards holds the list of
live endpoints. -/
structure Dev where
  port : Nat
  dev_block_size : Nat
  size : Nat
  flags : DevFlags
  pager : Option Nat
  pager_port_bucket : Option (List Endpoint)
deriving Repr, DecidableEq

/-- Result of the external `device_read` call: error code, the returned
buffer (a page-multiple allocation) and the count of bytes actually
read. -/
structure DeviceReadResult where
  err : Nat
  buf : List Nat
  read : Nat
deriving Repr, DecidableEq

/-- Result of the external `device_write` call: error code and the count
of bytes actually written. -/
structure DeviceWriteResult where
  err : Nat
  written : Nat
deriving Repr, DecidableEq

/-- A `device_read` oracle: arguments are port, mode, record number and
byte count, as in the C call. -/
def DeviceReadFn := Nat → Nat → Nat → Nat → DeviceReadResult

/-- A `device_write` oracle: arguments are port, mode, record number,
buffer address and byte count, as in the C call. -/
def DeviceWriteFn := Nat → Nat → Nat → Nat → Nat → DeviceWriteResult

/-- Result of `pager_read_page`: returned error code, the page buffer
handed to the kernel (`*buf`), the `*writelock` output, and the device
descriptor as the handler leaves it. -/
structure ReadPageResult where
  ret : Nat
  buf : List Nat
  writelock : Bool
  dev : Dev
deriving Repr, DecidableEq

/-- `pager_read_page`: read one page at offset `page`.  Reads a partial
amount for the trailing page, zero-fills the rest of the page buffer on
a successful partial read, sets the write lock from `DEV_READONLY`, and
returns `eio` on a device error or short read. -/
def pager_read_page (device_read : DeviceReadFn) (dev : Dev) (page : Nat) :
    ReadPageResult :=
  let want := if page + vm_page_size > dev.size then dev.size - page else vm_page_size
  let r := device_read dev.port 0 (page / dev.dev_block_size) want
  let buf :=
    if r.err = 0 ∧ want < vm_page_size then
      r.buf.take want ++ List.replicate (vm_page_size - want) 0
    else r.buf
  let writelock := dev.flags.readonly
  if r.err ≠ 0 ∨ r.read < want then
    { ret := eio, buf := buf, writelock := writelock, dev := dev }
  else
    { ret := 0, buf := buf, writelock := writelock, dev := dev }

/-- Result of `pager_write_page`: returned error code, the single device
write issued (record number, buffer address, byte count; `none` when no
device write happened), whether `vm_deallocate` was called on the
caller's buffer, and the device descriptor as the handler leaves it. -/
structure WritePageResult where
  ret : Nat
  write_call : Option (Nat × Nat × Nat)
  dealloc : Bool
  dev : Dev
deriving Repr, DecidableEq

/-- `pager_write_page`: write one page from `buf` to offset `page`.  On
a read-only device it returns `erofs` immediately (issuing no device
write and, as the C code does, skipping the `vm_deallocate` of `buf`);
otherwise it writes a possibly-partial trailing amount, deallocates the
buffer, and returns `eio` on a device error or short write. -/
def pager_write_page (device_write : DeviceWriteFn) (dev : Dev) (page : Nat)
    (buf : Nat) : WritePageResult :=
  if dev.flags.readonly then
    { ret := erofs, write_call := none, dealloc := false, dev := dev }
  else
    let want := if page + vm_page_size > dev.size then dev.size - page else vm_page_size
    let r := device_write dev.port 0 (page / dev.dev_block_size) buf want
    let ret := if r.err ≠ 0 ∨ r.written < want then eio else 0
    { ret := ret, write_call := some (page / dev.dev_block_size, buf, want),
      dealloc := true, dev := dev }

/-- Result of `pager_unlock_page`. -/
structure UnlockPageResult where
  ret : Nat
  dev : Dev
deriving Repr, DecidableEq

/-- `pager_unlock_page`: a page should be made writable; fails with
`erofs` on a read-only device, otherwise succeeds with no effect. -/
def pager_unlock_page (dev : Dev) (address : Nat) : UnlockPageResult :=
  if dev.flags.readonly then
    { ret := erofs, dev := dev }
  else
    { ret := 0, dev := dev }

/-- Result of `pager_report_extent`: error code and the `*offset` and
`*size` outputs. -/
structure ReportExtentResult where
  ret : Nat
  offset : Nat
  size : Nat
  dev : Dev
deriving Repr, DecidableEq

/-- `pager_report_extent`: reports offset 0 and the device's size. -/
def pager_report_extent (dev : Dev) : ReportExtentResult :=
  { ret := 0, offset := 0, size := dev.size, dev := dev }

/-- `ports_count_bucket`: the number of live endpoints in a bucket (0
for the never-created bucket). -/
def ports_count_bucket : Option (List Endpoint) → Nat
  | none => 0
  | some l => l.length

/-- `pager_change_attributes`: set an endpoint's caching attributes
(the `wait` argument only governs synchrony and has no state effect). -/
def pager_change_attributes (p : Endpoint) (mayCache : Bool)
    (copyStrategy : Nat) : Endpoint :=
  { p with may_cache := mayCache, copy_strategy := copyStrategy }

/-- The nested `block_cache` helper of `dev_stop_paging`: turn caching
off (`pager_change_attributes (p, 0, MEMORY_OBJECT_COPY_DELAY, 1)`). -/
def block_cache (p : Endpoint) : Endpoint :=
  pager_change_attributes p false MEMORY_OBJECT_COPY_DELAY

/-- The nested `enable_cache` helper of `dev_stop_paging`: turn caching
back on (`pager_change_attributes (p, 1, MEMORY_OBJECT_COPY_DELAY, 0)`). -/
def enable_cache (p : Endpoint) : Endpoint :=
  pager_change_attributes p true MEMORY_OBJECT_COPY_DELAY

/-- `ports_bucket_iterate`: apply an operation to every endpoint of the
bucket. -/
def ports_bucket_iterate (b : Option (List Endpoint))
    (f : Endpoint → Endpoint) : Option (List Endpoint) :=
  b.map (List.map f)

/-- Result of `dev_stop_paging`: the returned success flag, the device
descriptor as the call leaves it, and whether `pager_shutdown` was
invoked on the backing object. -/
structure StopPagingResult where
  success : Bool
  dev : Dev
  shutdown_called : Bool
deriving Repr, DecidableEq

/-- `dev_stop_paging`: try to stop all paging activity on `dev`.  The
kernel's reaction to the caching change during the `sleep (1)` grace
period is abstracted by the `settle` oracle, which maps the bucket
contents after `block_cache` was applied to the bucket contents at the
re-count.  Mirrors the C control flow: with an active pager and a
positive endpoint count and `nosync` false, caching is turned off on
every endpoint, the grace period elapses, and the endpoints are
re-counted; if any remain, caching is re-enabled on them and the call
fails; on every successful path the pager reference is cleared, and
`pager_shutdown` runs only when the call is succeeding and `nosync` is
false. -/
def dev_stop_paging (settle : List Endpoint → List Endpoint) (dev : Dev)
    (nosync : Bool) : StopPagingResult :=
  match dev.pager with
  | some _ =>
    if ports_count_bucket dev.pager_port_bucket > 0 ∧ nosync = false then
      let blocked := ports_bucket_iterate dev.pager_port_bucket block_cache
      let after_sleep := blocked.map settle
      if ports_count_bucket after_sleep > 0 then
        { success := false,
          dev := { dev with pager_port_bucket := ports_bucket_iterate after_sleep enable_cache },
          shutdown_called := false }
      else
        { success := true,
          dev := { dev with pager_port_bucket := after_sleep, pager := none },
          shutdown_called := true }
    else
      { success := true, dev := { dev with pager := none },
        shutdown_called := !nosync }
  | none =>
    { success := true, dev := { dev with pager := none },
      shutdown_called := false }

/-- `init_dev_paging`: create the (empty) pager port bucket and spawn
the request-servicing thread (the thread itself is outside the
sequential model). -/
def init_dev_paging (dev : Dev) : Dev :=
  { dev with pager_port_bucket := some [] }

/-- Result of `dev_get_memory_object`: returned error code, the
`*memobj` output port, the device descriptor as the call leaves it, and
whether the call invoked `init_dev_paging`, invoked `pager_create`, or
took a reference on an existing pager via `ports_port_ref`. -/
structure GetMemoryObjectResult where
  ret : Nat
  memobj : Nat
  dev : Dev
  created_bucket : Bool
  created_pager : Bool
  reffed_existing : Bool
deriving Repr, DecidableEq

/-- `dev_get_memory_object`: return a memory object backed by the
device.  The external `pager_create` call is abstracted by
`pager_create_result` (the pager it would return, `none` for `NULL`),
`pager_get_port` by an oracle from pager to port, and the result of
`mach_port_insert_right` by `insert_right_result`.  Mirrors the C
control flow: serial devices fail with `enodev` at once; otherwise the
bucket is created if absent, the pager is created if absent (else an
extra reference is taken), a still-`NULL` pager yields `enodev`, and
otherwise the pager's port is fetched, the original pager reference is
dropped, and a non-null port is given a send right. -/
def dev_get_memory_object (pager_create_result : Option Nat)
    (pager_get_port : Nat → Nat) (insert_right_result : Nat) (dev : Dev) :
    GetMemoryObjectResult :=
  if dev.flags.serial then
    { ret := enodev, memobj := MACH_PORT_NULL, dev := dev,
      created_bucket := false, created_pager := false, reffed_existing := false }
  else
    let createdBucket := dev.pager_port_bucket.isNone
    let dev1 := if dev.pager_port_bucket.isNone then init_dev_paging dev else dev
    let createdPager := dev1.pager.isNone
    let reffed := !dev1.pager.isNone
    let dev2 := if dev1.pager.isNone then { dev1 with pager := pager_create_result }
                else dev1
    match dev2.pager with
    | none =>
      { ret := enodev, memobj := MACH_PORT_NULL, dev := dev2,
        created_bucket := createdBucket, created_pager := createdPager,
        reffed_existing := reffed }
    | some p =>
      let memobj := pager_get_port p
      { ret := if memobj ≠ MACH_PORT_NULL then insert_right_result else 0,
        memobj := memobj, dev := dev2,
        created_bucket := createdBucket, created_pager := createdPager,
        reffed_existing := reffed }

/-- The byte count the page handlers compute (`want`) equals
`min page_size (size - page)` whenever `page < size`. -/
theorem trailing_want_eq_min (page size : Nat) (h : page < size) :
    (if page + vm_page_size > size then size - page else vm_page_size) =
      min vm_page_size (size - page) := by
  rw [Nat.min_def]
  split <;> split <;> omega

/-- Read-only device used to exhibit the missing `vm_deallocate`. -/
def c1_dev : Dev :=
  { port := 1, dev_block_size := 512, size := 8192,
    flags := { readonly := true, serial := false },
    pager := none, pager_port_bucket := none }

/-- A device-write oracle (never reached on the read-only path). -/
def c1_device_write : DeviceWriteFn := fun _ _ _ _ _ => { err := 0, written := 0 }

/-- C1: on a read-only device `pager_write_page` returns `EROFS` and
issues no device write, but — contrary to the claim and to the
function's own contract that `BUF` must be `vm_deallocate`d — it
returns without releasing the caller's buffer (`dealloc = false`). -/
theorem c1_readonly_write_page_leaks_buffer :
    pager_write_page c1_device_write c1_dev 0 77 =
      { ret := erofs, write_call := none, dealloc := false, dev := c1_dev } := rfl

/-- A live endpoint with the default (delayed-copy, caching-on)
attributes. -/
def c2_endpoint : Endpoint :=
  { id := 0, may_cache := true, copy_strategy := MEMORY_OBJECT_COPY_DELAY }

/-- A device with an active pager and two live endpoints. -/
def c2_dev : Dev :=
  { port := 1, dev_block_size := 512, size := 8192,
    flags := { readonly := false, serial := false },
    pager := some 1, pager_port_bucket := some [c2_endpoint, c2_endpoint] }

/-- C2 counterexample: with `nosync = true` and two live endpoints,
`dev_stop_paging` returns success (the live-endpoint check is guarded
by `!nosync` and is skipped entirely), contradicting the claim that it
fails whenever one or more live endpoints exist. -/
theorem c2_nosync_succeeds_despite_live_endpoints :
    ports_count_bucket c2_dev.pager_port_bucket = 2 ∧
      (dev_stop_paging id c2_dev true).success = true ∧
      (dev_stop_paging id c2_dev true).dev.pager = none := by
  refine ⟨rfl, rfl, rfl⟩

/-- C2 amended: with `nosync = true`, `dev_stop_paging` never invokes
`pager_shutdown` (no flush I/O), and it always returns success and
clears the pager reference, regardless of how many live endpoints the
request group holds. -/
theorem c2_nosync_no_shutdown_always_succeeds
    (settle : List Endpoint → List Endpoint) (dev : Dev) :
    (dev_stop_paging settle dev true).shutdown_called = false ∧
      (dev_stop_paging settle dev true).success = true ∧
      (dev_stop_paging settle dev true).dev.pager = none := by
  cases hp : dev.pager <;> simp [dev_stop_paging, hp]

/-- A writable device for the C3 counterexample. -/
def c3_dev : Dev :=
  { port := 1, dev_block_size := 512, size := 8192,
    flags := { readonly := false, serial := false },
    pager := none, pager_port_bucket := none }

/-- A device-write oracle that reports an error even though it wrote
every requested byte. -/
def c3_device_write : DeviceWriteFn := fun _ _ _ _ want => { err := 7, written := want }

/-- C3 counterexample: the device reports `err = 7` but a full
`written = want = 4096`, and `pager_write_page` still fails with `EIO`;
so the operation does not fail *only* when the device reports fewer
bytes written than requested — it also fails on a device error code. -/
theorem c3_write_page_eio_without_short_write :
    (pager_write_page c3_device_write c3_dev 0 9).ret = eio ∧
      (pager_write_page c3_device_write c3_dev 0 9).write_call = some (0, 9, 4096) ∧
      ¬ (c3_device_write c3_dev.port 0 0 9 4096).written < 4096 := by
  refine ⟨rfl, rfl, by decide⟩

/-- C3 amended: on a writable device at a page-aligned offset
`page < size`, `pager_write_page` issues exactly one device write of
`min page_size (size - page)` bytes at record number
`page / block_size`, releases the buffer, and fails with `EIO` if and
only if the device reported an error or fewer bytes written than
requested (returning 0 otherwise). -/
theorem c3_write_page_single_write_eio_iff (device_write : DeviceWriteFn)
    (dev : Dev) (page buf : Nat) (hro : dev.flags.readonly = false)
    (halign : page % vm_page_size = 0) (hlt : page < dev.size) :
    (pager_write_page device_write dev page buf).write_call =
        some (page / dev.dev_block_size, buf, min vm_page_size (dev.size - page)) ∧
      (pager_write_page device_write dev page buf).dealloc = true ∧
      ((pager_write_page device_write dev page buf).ret = eio ↔
        ((device_write dev.port 0 (page / dev.dev_block_size) buf
            (min vm_page_size (dev.size - page))).err ≠ 0 ∨
          (device_write dev.port 0 (page / dev.dev_block_size) buf
            (min vm_page_size (dev.size - page))).written <
            min vm_page_size (dev.size - page))) ∧
      ((pager_write_page device_write dev page buf).ret = 0 ↔
        ¬((device_write dev.port 0 (page / dev.dev_block_size) buf
            (min vm_page_size (dev.size - page))).err ≠ 0 ∨
          (device_write dev.port 0 (page / dev.dev_block_size) buf
            (min vm_page_size (dev.size - page))).written <
            min vm_page_size (dev.size - page))) := by
  have hw := trailing_want_eq_min page dev.size hlt
  refine ⟨?_, ?_, ?_, ?_⟩ <;>
    simp only [pager_write_page, hro, Bool.false_eq_true, if_false, hw] <;>
    split <;> simp_all [eio]

/-- Witness for the amended C3 at a concrete input. -/
theorem c3_write_page_single_write_eio_iff_witness :
    (pager_write_page c1_device_write c3_dev 4096 9).write_call =
        some (4096 / c3_dev.dev_block_size, 9, min vm_page_size (c3_dev.size - 4096)) ∧
      (pager_write_page c1_device_write c3_dev 4096 9).dealloc = true ∧
      ((pager_write_page c1_device_write c3_dev 4096 9).ret = eio ↔
        ((c1_device_write c3_dev.port 0 (4096 / c3_dev.dev_block_size) 9
            (min vm_page_size (c3_dev.size - 4096))).err ≠ 0 ∨
          (c1_device_write c3_dev.port 0 (4096 / c3_dev.dev_block_size) 9
            (min vm_page_size (c3_dev.size - 4096))).written <
            min vm_page_size (c3_dev.size - 4096))) ∧
      ((pager_write_page c1_device_write c3_dev 4096 9).ret = 0 ↔
        ¬((c1_device_write c3_dev.port 0 (4096 / c3_dev.dev_block_size) 9
            (min vm_page_size (c3_dev.size - 4096))).err ≠ 0 ∨
          (c1_device_write c3_dev.port 0 (4096 / c3_dev.dev_block_size) 9
            (min vm_page_size (c3_dev.size - 4096))).written <
            min vm_page_size (c3_dev.size - 4096))) :=
  c3_write_page_single_write_eio_iff c1_device_write c3_dev 4096 9 (by decide)
    (by decide) (by decide)

/-- Writable device whose last page is a partial tail, for the C4
witness. -/
def c4_dev : Dev :=
  { port := 2, dev_block_size := 512, size := 4608,
    flags := { readonly := false, serial := false },
    pager := none, pager_port_bucket := none }

/-- Device-read oracle returning a page-sized allocation of sevens with
512 valid bytes. -/
def c4_device_read : DeviceReadFn :=
  fun _ _ _ _ => { err := 0, buf := List.replicate 4096 7, read := 512 }

/-- C4: a successful `pager_read_page` at a page-aligned offset
`page < size` yields a full page-sized buffer whose first
`min page_size (size - page)` bytes are the device's bytes for record
`page / block_size` and whose remaining bytes are all zero, with the
write-lock output equal to the device's read-only flag.  (The device's
allocation is page-sized, hypothesis `hbuf`.) -/
theorem c4_read_page_success_contents (device_read : DeviceReadFn) (dev : Dev)
    (page : Nat) (halign : page % vm_page_size = 0) (hlt : page < dev.size)
    (hbuf : (device_read dev.port 0 (page / dev.dev_block_size)
        (min vm_page_size (dev.size - page))).buf.length = vm_page_size)
    (hret : (pager_read_page device_read dev page).ret = 0) :
    (pager_read_page device_read dev page).buf.length = vm_page_size ∧
      (pager_read_page device_read dev page).buf.take
          (min vm_page_size (dev.size - page)) =
        (device_read dev.port 0 (page / dev.dev_block_size)
            (min vm_page_size (dev.size - page))).buf.take
          (min vm_page_size (dev.size - page)) ∧
      (pager_read_page device_read dev page).buf.drop
          (min vm_page_size (dev.size - page)) =
        List.replicate (vm_page_size - min vm_page_size (dev.size - page)) 0 ∧
      (pager_read_page device_read dev page).writelock = dev.flags.readonly := by
  have hw := trailing_want_eq_min page dev.size hlt
  simp only [pager_read_page, hw] at hret ⊢
  set want := min vm_page_size (dev.size - page) with hwdef
  set r0 := device_read dev.port 0 (page / dev.dev_block_size) want with hr0def
  have hwle : want ≤ vm_page_size := Nat.min_le_left _ _
  by_cases hfail : r0.err ≠ 0 ∨ r0.read < want
  · rw [if_pos hfail] at hret
    exact absurd hret (by simp [eio])
  · rw [if_neg hfail] at hret ⊢
    push_neg at hfail
    by_cases hpart : want < vm_page_size
    · have hcond : r0.err = 0 ∧ want < vm_page_size := ⟨hfail.1, hpart⟩
      rw [if_pos hcond]
      have htlen : (r0.buf.take want).length = want := by
        rw [List.length_take, hbuf]
        omega
      refine ⟨?_, ?_, ?_, rfl⟩
      · rw [List.length_append, htlen, List.length_replicate]
        omega
      · rw [List.take_append_of_le_length (le_of_eq htlen.symm), List.take_take]
        simp
      · calc (r0.buf.take want ++ List.replicate (vm_page_size - want) 0).drop want
            = (r0.buf.take want ++ List.replicate (vm_page_size - want) 0).drop
                (r0.buf.take want).length := by rw [htlen]
          _ = List.replicate (vm_page_size - want) 0 := List.drop_left _ _
    · have hfull : want = vm_page_size := le_antisymm hwle (not_lt.mp hpart)
      have hcond : ¬(r0.err = 0 ∧ want < vm_page_size) := by
        intro hc
        exact hpart hc.2
      rw [if_neg hcond]
      refine ⟨hbuf, rfl, ?_, rfl⟩
      · rw [hfull, ← hbuf, List.drop_length, Nat.sub_self, List.replicate_zero]

/-- Witness for C4 at a concrete partial-tail input: device size 4608,
page offset 4096, so 512 device bytes and 3584 zero bytes. -/
theorem c4_read_page_success_contents_witness :
    (pager_read_page c4_device_read c4_dev 4096).buf.length = vm_page_size ∧
      (pager_read_page c4_device_read c4_dev 4096).buf.take
          (min vm_page_size (c4_dev.size - 4096)) =
        (c4_device_read c4_dev.port 0 (4096 / c4_dev.dev_block_size)
            (min vm_page_size (c4_dev.size - 4096))).buf.take
          (min vm_page_size (c4_dev.size - 4096)) ∧
      (pager_read_page c4_device_read c4_dev 4096).buf.drop
          (min vm_page_size (c4_dev.size - 4096)) =
        List.replicate (vm_page_size - min vm_page_size (c4_dev.size - 4096)) 0 ∧
      (pager_read_page c4_device_read c4_dev 4096).writelock =
        c4_dev.flags.readonly :=
  c4_read_page_success_contents c4_device_read c4_dev 4096 (by decide) (by decide)
    (show (List.replicate 4096 7).length = vm_page_size by
      rw [List.length_replicate]
      rfl) (by rfl)

/-- C5: with an active pager, `nosync = false`, at least one live
endpoint initially and at least one endpoint remaining after the grace
period, `dev_stop_paging` fails, leaves the pager reference intact,
never calls `pager_shutdown`, and re-enables caching (the delayed
policy) on every endpoint left in the bucket. -/
theorem c5_stop_paging_abort_rolls_back (settle : List Endpoint → List Endpoint)
    (dev : Dev) (p : Nat) (l : List Endpoint) (hp : dev.pager = some p)
    (hb : dev.pager_port_bucket = some l) (hl : 0 < l.length)
    (hs : 0 < (settle (l.map block_cache)).length) :
    (dev_stop_paging settle dev false).success = false ∧
      (dev_stop_paging settle dev false).dev.pager = some p ∧
      (dev_stop_paging settle dev false).shutdown_called = false ∧
      (dev_stop_paging settle dev false).dev.pager_port_bucket =
        some ((settle (l.map block_cache)).map enable_cache) ∧
      ∀ e ∈ (dev_stop_paging settle dev false).dev.pager_port_bucket.getD [],
        e.may_cache = true ∧ e.copy_strategy = MEMORY_OBJECT_COPY_DELAY := by
  have hkey : dev_stop_paging settle dev false =
      StopPagingResult.mk false
        (Dev.mk dev.port dev.dev_block_size dev.size dev.flags (some p)
          (some ((settle (l.map block_cache)).map enable_cache)))
        false := by
    obtain ⟨po, bs, sz, fl, pg, bk⟩ := dev
    obtain rfl : pg = some p := hp
    obtain rfl : bk = some l := hb
    simp only [dev_stop_paging, ports_count_bucket, ports_bucket_iterate,
      Option.map_some]
    rw [if_pos ⟨hl, trivial⟩]
    have hss : Option.map settle (Option.map (List.map block_cache) (some l)) =
        some (settle (List.map block_cache l)) := rfl
    rw [hss, if_pos hs]
    rfl
  rw [hkey]
  refine ⟨rfl, rfl, rfl, rfl, ?_⟩
  intro e he
  simp only [Option.getD_some, List.mem_map] at he
  obtain ⟨x, _, hx⟩ := he
  subst hx
  exact ⟨rfl, rfl⟩

/-- Endpoint for the C5 witness. -/
def c5_endpoint : Endpoint :=
  { id := 4, may_cache := true, copy_strategy := MEMORY_OBJECT_COPY_DELAY }

/-- Device for the C5 witness: an active pager and one live endpoint
that does not go away during the grace period (`settle = id`). -/
def c5_dev : Dev :=
  { port := 3, dev_block_size := 512, size := 8192,
    flags := { readonly := false, serial := false },
    pager := some 8, pager_port_bucket := some [c5_endpoint] }

/-- Witness for C5 at a concrete input. -/
theorem c5_stop_paging_abort_rolls_back_witness :
    (dev_stop_paging id c5_dev false).success = false ∧
      (dev_stop_paging id c5_dev false).dev.pager = some 8 ∧
      (dev_stop_paging id c5_dev false).shutdown_called = false ∧
      (dev_stop_paging id c5_dev false).dev.pager_port_bucket =
        some ((id ([c5_endpoint].map block_cache)).map enable_cache) ∧
      ∀ e ∈ (dev_stop_paging id c5_dev false).dev.pager_port_bucket.getD [],
        e.may_cache = true ∧ e.copy_strategy = MEMORY_OBJECT_COPY_DELAY :=
  c5_stop_paging_abort_rolls_back id c5_dev 8 [c5_endpoint] rfl rfl (by decide)
    (by decide)

/-- C6: with an active pager, zero live endpoints and `nosync = false`,
`dev_stop_paging` succeeds and clears the pager reference. -/
theorem c6_stop_paging_idle_succeeds (settle : List Endpoint → List Endpoint)
    (dev : Dev) (p : Nat) (hp : dev.pager = some p)
    (hb : ports_count_bucket dev.pager_port_bucket = 0) :
    (dev_stop_paging settle dev false).success = true ∧
      (dev_stop_paging settle dev false).dev.pager = none := by
  simp [dev_stop_paging, hp, hb]

/-- Device for the C6 witness: an active pager over an empty bucket. -/
def c6_dev : Dev :=
  { port := 3, dev_block_size := 512, size := 8192,
    flags := { readonly := false, serial := false },
    pager := some 8, pager_port_bucket := some [] }

/-- Witness for C6 at a concrete input. -/
theorem c6_stop_paging_idle_succeeds_witness :
    (dev_stop_paging id c6_dev false).success = true ∧
      (dev_stop_paging id c6_dev false).dev.pager = none :=
  c6_stop_paging_idle_succeeds id c6_dev 8 rfl rfl

/-- C7: every error surfaced by the page handlers out of a device call
lies in the permitted vocabulary {EIO, EDQUOT, ENOSPC}: `pager_read_page`
returns 0 or `EIO`, and whenever `pager_write_page` issued a device
write at all, it returns 0 or `EIO` (its only other return, `EROFS`,
happens without any device call). -/
theorem c7_error_vocabulary (device_read : DeviceReadFn)
    (device_write : DeviceWriteFn) (dev : Dev) (page buf : Nat) :
    ((pager_read_page device_read dev page).ret = 0 ∨
        (pager_read_page device_read dev page).ret ∈ [eio, edquot, enospc]) ∧
      ((pager_write_page device_write dev page buf).write_call ≠ none →
        ((pager_write_page device_write dev page buf).ret = 0 ∨
          (pager_write_page device_write dev page buf).ret ∈ [eio, edquot, enospc])) := by
  constructor
  · simp only [pager_read_page]
    split <;> split <;> simp
  · intro hcall
    by_cases hro : dev.flags.readonly
    · exact absurd (by simp [pager_write_page, hro]) hcall
    · simp only [pager_write_page, hro, Bool.false_eq_true, if_false]
      split <;> split <;> simp

/-- Writable device for the C7 witness. -/
def c7_dev : Dev :=
  { port := 5, dev_block_size := 512, size := 8192,
    flags := { readonly := false, serial := false },
    pager := none, pager_port_bucket := none }

/-- Device-read oracle for the C7 witness. -/
def c7_device_read : DeviceReadFn :=
  fun _ _ _ _ => { err := 0, buf := [], read := 0 }

/-- Device-write oracle for the C7 witness. -/
def c7_device_write : DeviceWriteFn :=
  fun _ _ _ _ _ => { err := 3, written := 0 }

/-- Witness for C7 at a concrete input (the write side's hypothesis —
a device write was issued — holds because the device is writable). -/
theorem c7_error_vocabulary_witness :
    ((pager_read_page c7_device_read c7_dev 0).ret = 0 ∨
        (pager_read_page c7_device_read c7_dev 0).ret ∈ [eio, edquot, enospc]) ∧
      ((pager_write_page c7_device_write c7_dev 0 9).ret = 0 ∨
        (pager_write_page c7_device_write c7_dev 0 9).ret ∈ [eio, edquot, enospc]) := by
  have h := c7_error_vocabulary c7_device_read c7_device_write c7_dev 0 9
  exact ⟨h.1, h.2 (by decide)⟩

/-- C8: on a device of the serial (non-pageable) class,
`dev_get_memory_object` fails with `ENODEV`, leaves the descriptor
unchanged, and creates neither a pager nor a port bucket. -/
theorem c8_get_memory_object_serial_fails (pager_create_result : Option Nat)
    (pager_get_port : Nat → Nat) (insert_right_result : Nat) (dev : Dev)
    (hserial : dev.flags.serial = true) :
    dev_get_memory_object pager_create_result pager_get_port insert_right_result
        dev =
      { ret := enodev, memobj := MACH_PORT_NULL, dev := dev,
        created_bucket := false, created_pager := false,
        reffed_existing := false } := by
  simp [dev_get_memory_object, hserial]

/-- Serial-class device for the C8 witness. -/
def c8_dev : Dev :=
  { port := 6, dev_block_size := 1, size := 0,
    flags := { readonly := false, serial := true },
    pager := none, pager_port_bucket := none }

/-- Witness for C8 at a concrete input. -/
theorem c8_get_memory_object_serial_fails_witness :
    dev_get_memory_object (some 7) (fun n => n + 10) 0 c8_dev =
      { ret := enodev, memobj := MACH_PORT_NULL, dev := c8_dev,
        created_bucket := false, created_pager := false,
        reffed_existing := false } :=
  c8_get_memory_object_serial_fails (some 7) (fun n => n + 10) 0 c8_dev rfl

/-- C9: on a pageable device with no pager yet, a first
`dev_get_memory_object` (whose `pager_create` yields pager `p`) creates
the backing object, and a second call on the resulting descriptor
creates nothing: it takes a reference to the existing pager instead of
invoking `pager_create`, does not create another port bucket, and both
calls hand out the port of the one pager `p`. -/
theorem c9_get_memory_object_shares_backing_object (pc2 : Option Nat)
    (pager_get_port : Nat → Nat) (ir1 ir2 : Nat) (dev : Dev) (p : Nat)
    (hserial : dev.flags.serial = false) (hp : dev.pager = none) :
    (dev_get_memory_object (some p) pager_get_port ir1 dev).created_pager = true ∧
      (dev_get_memory_object (some p) pager_get_port ir1 dev).dev.pager = some p ∧
      (dev_get_memory_object (some p) pager_get_port ir1 dev).memobj =
        pager_get_port p ∧
      (dev_get_memory_object pc2 pager_get_port ir2
          (dev_get_memory_object (some p) pager_get_port ir1 dev).dev).created_pager
        = false ∧
      (dev_get_memory_object pc2 pager_get_port ir2
          (dev_get_memory_object (some p) pager_get_port ir1 dev).dev).created_bucket
        = false ∧
      (dev_get_memory_object pc2 pager_get_port ir2
          (dev_get_memory_object (some p) pager_get_port ir1 dev).dev).reffed_existing
        = true ∧
      (dev_get_memory_object pc2 pager_get_port ir2
          (dev_get_memory_object (some p) pager_get_port ir1 dev).dev).dev.pager
        = some p ∧
      (dev_get_memory_object pc2 pager_get_port ir2
          (dev_get_memory_object (some p) pager_get_port ir1 dev).dev).memobj =
        pager_get_port p := by
  obtain ⟨po, bs, sz, fl, pg, bk⟩ := dev
  obtain ⟨ro, se⟩ := fl
  obtain rfl : pg = none := hp
  obtain rfl : se = false := hserial
  cases bk with
  | none => simp [dev_get_memory_object, init_dev_paging]
  | some l => simp [dev_get_memory_object, init_dev_paging]

/-- Pageable device with no pager yet, for the C9 witness. -/
def c9_dev : Dev :=
  { port := 7, dev_block_size := 512, size := 8192,
    flags := { readonly := false, serial := false },
    pager := none, pager_port_bucket := none }

/-- Witness for C9 at a concrete input. -/
theorem c9_get_memory_object_shares_backing_object_witness :
    (dev_get_memory_object (some 11) (fun n => n + 10) 0 c9_dev).created_pager
        = true ∧
      (dev_get_memory_object (some 11) (fun n => n + 10) 0 c9_dev).dev.pager =
        some 11 ∧
      (dev_get_memory_object (some 11) (fun n => n + 10) 0 c9_dev).memobj = 21 ∧
      (dev_get_memory_object (some 99) (fun n => n + 10) 0
          (dev_get_memory_object (some 11) (fun n => n + 10) 0 c9_dev).dev).created_pager
        = false ∧
      (dev_get_memory_object (some 99) (fun n => n + 10) 0
          (dev_get_memory_object (some 11) (fun n => n + 10) 0 c9_dev).dev).created_bucket
        = false ∧
      (dev_get_memory_object (some 99) (fun n => n + 10) 0
          (dev_get_memory_object (some 11) (fun n => n + 10) 0 c9_dev).dev).reffed_existing
        = true ∧
      (dev_get_memory_object (some 99) (fun n => n + 10) 0
          (dev_get_memory_object (some 11) (fun n => n + 10) 0 c9_dev).dev).dev.pager
        = some 11 ∧
      (dev_get_memory_object (some 99) (fun n => n + 10) 0
          (dev_get_memory_object (some 11) (fun n => n + 10) 0 c9_dev).dev).memobj
        = 21 :=
  c9_get_memory_object_shares_backing_object (some 99) (fun n => n + 10) 0 0
    c9_dev 11 rfl rfl

/-- C10: `pager_read_page`, `pager_write_page`, `pager_unlock_page` and
`pager_report_extent` leave every field of the device descriptor
unchanged on every path. -/
theorem c10_handlers_preserve_descriptor (device_read : DeviceReadFn)
    (device_write : DeviceWriteFn) (dev : Dev) (page buf address : Nat) :
    (pager_read_page device_read dev page).dev = dev ∧
      (pager_write_page device_write dev page buf).dev = dev ∧
      (pager_unlock_page dev address).dev = dev ∧
      (pager_report_extent dev).dev = dev := by
  refine ⟨?_, ?_, ?_, rfl⟩
  · simp only [pager_read_page]
    split <;> split <;> rfl
  · simp only [pager_write_page]
    split <;> rfl
  · simp only [pager_unlock_page]
    split <;> rfl
